import Mathlib

/-!
Shallow embedding of the login / account-lockout state machine of the
repository (source file: the Express controller holding `loginUser` and its
helpers).  Timestamps are modelled as natural numbers of milliseconds; the
HTTP response object is modelled as the list of JSON writes performed during
one call (the transport sends the first write).  External collaborators that
live outside the embedded source file (storage lookup, password hashing,
token minting, lock/reset persistence) are modelled from the spec's
collaborator contracts, each marked in its doc comment.
-/

namespace LoginGate

/-- The `verification` sub-record of a stored account.  `loginAttempts` is an
`Option` because the JavaScript field may be absent (`undefined`);
`blockExpiration` is an optional timestamp in milliseconds. -/
structure Verification where
  isEmailVerified : Bool
  isPhoneVerified : Bool
  loginAttempts : Option Nat
  blockExpiration : Option Nat
deriving Repr, DecidableEq

/-- A stored account record, restricted to the fields the login gate reads. -/
structure User where
  username : String
  id : Nat
  rol : String
  verification : Verification
deriving Repr, DecidableEq

/-- One JSON write performed on the HTTP response object.  Each constructor
corresponds to one `res.json`/`res.status(...).json` call site of the source. -/
inductive Resp where
  | userNotExists (username : String)
  | userNotVerified
  | numberNotVerified
  | accountLocked
  | accountLockedTimeLeft (timeLeft : Int)
  | incorrectPassword (attempts : Nat)
  | loggedIn (msg : String) (token : String) (userId : Nat) (rol : String)
      (passwordorrandomPassword : Option String)
deriving Repr, DecidableEq

/-- `const MAX_LOGIN_ATTEMPTS = 5;` -/
def MAX_LOGIN_ATTEMPTS : Nat := 5

/-- Modelled from the spec: `lockAccount(username, duration)` from
`utils/authUtils` (not under the embedded source) "sets `blockExpiration`"
to now + fixed lock duration; the duration is a fixed configuration
constant whose value is not in the embedded source, kept as the parameter
`lockDuration`. -/
def lockAccount (lockDuration now : Nat) (user : User) : User :=
  { user with verification :=
      { user.verification with blockExpiration := some (now + lockDuration) } }

/-- Modelled from the spec: `resetLoginAttempts(account)` from
`services/user/userService` (not under the embedded source) is
"atomic set-to-zero-and-persist" of the counter. -/
def resetLoginAttempts (user : User) : User :=
  { user with verification :=
      { user.verification with loginAttempts := some 0 } }

/-- Modelled from the spec: `findAccountByUsername(username) → Account |
absent`; `getUserByUsername` from `services/user/userService` is not under
the embedded source.  The store is a list of account records. -/
def getUserByUsername (db : List User) (username : String) : Option User :=
  db.find? (fun u => u.username == username)

/-- Persistence of an update to the looked-up record: the storage
collaborator updates that one row, modelled as replacing the first record
with the same username. -/
def updateUser : List User → User → List User
  | [], _ => []
  | u :: rest, user =>
      if u.username == user.username then user :: rest
      else u :: updateUser rest user

/-- Modelled from the spec: the success message `successMessages.userLoggedIn`
comes from the message catalogue `middleware/messages`, which is not under
the embedded source; only its distinctness from the recovery message
matters. -/
def userLoggedInMsg : String := "userLoggedIn"

/-- The recovery-login message literal of `handleSuccessfulLogin`. -/
def recoveryMsg : String := "Inicio de sesión Recuperación de contraseña"

/-- `handleUnverifiedUser`: writes the `errorMessages.userNotVerified`
rejection. -/
def handleUnverifiedUser : List Resp := [Resp.userNotVerified]

/-- `incrementLoginAttempts`: `(user.verification.loginAttempts || 0) + 1`,
persisted on the record; returns the updated count together with the updated
record. -/
def incrementLoginAttempts (user : User) : Nat × User :=
  let updatedLoginAttempts := user.verification.loginAttempts.getD 0 + 1
  (updatedLoginAttempts,
   { user with verification :=
      { user.verification with loginAttempts := some updatedLoginAttempts } })

/-- `handleLockedAccount`: locks the account via the lock collaborator and
writes the `errorMessages.accountLocked` rejection. -/
def handleLockedAccount (lockDuration now : Nat) (user : User) :
    List Resp × User :=
  ([Resp.accountLocked], lockAccount lockDuration now user)

/-- `handleIncorrectPassword`: increments the counter; at or above
`MAX_LOGIN_ATTEMPTS` it locks, otherwise it writes
`errorMessages.incorrectPassword(updatedLoginAttempts)`. -/
def handleIncorrectPassword (lockDuration now : Nat) (user : User) :
    List Resp × User :=
  let r := incrementLoginAttempts user
  if MAX_LOGIN_ATTEMPTS ≤ r.1 then
    handleLockedAccount lockDuration now r.2
  else
    ([Resp.incorrectPassword r.1], r.2)

/-- `handleSuccessfulLogin`: success write; the message and the extra
`passwordorrandomPassword` field depend on whether the presented password has
exactly 8 characters.  `generateAuthToken` is the token collaborator (spec:
`issueToken(account) → opaque string`), passed as a function parameter. -/
def handleSuccessfulLogin (generateAuthToken : User → String) (user : User)
    (password : String) : List Resp :=
  let msg := if password.length == 8 then recoveryMsg else userLoggedInMsg
  let token := generateAuthToken user
  let p : Option String :=
    if password.length == 8 then some "randomPassword" else none
  [Resp.loggedIn msg token user.id user.rol p]

/-- `isEmailVerified`: writes the unverified-user rejection and returns
`false` when the email flag is off. -/
def isEmailVerified (user : User) : List Resp × Bool :=
  if !user.verification.isEmailVerified then (handleUnverifiedUser, false)
  else ([], true)

/-- `isPhoneVerified`: writes the `errorMessages.numberNotVerified` rejection
and returns `false` when the phone flag is off. -/
def isPhoneVerified (user : User) : List Resp × Bool :=
  if !user.verification.isPhoneVerified then ([Resp.numberNotVerified], false)
  else ([], true)

/-- `isUserVerified`: evaluates BOTH checks (no boolean short-circuit in the
source: both locals are computed before the `&&`), concatenating their
response writes. -/
def isUserVerified (user : User) : List Resp × Bool :=
  let e := isEmailVerified user
  let p := isPhoneVerified user
  (e.1 ++ p.1, e.2 && p.2)

/-- `isAccountBlocked`: `blockExpiration && blockExpiration > currentDate`.
A present `Date` object is always truthy in JavaScript, so presence is the
`some` case. -/
def isAccountBlocked (now : Nat) (user : User) : Bool :=
  match user.verification.blockExpiration with
  | none => false
  | some blockExpiration => now < blockExpiration

/-- `calculateTimeLeft`: `Math.ceil((blockExpiration - currentDate) / 60000)`,
the rational ceiling, i.e. the floor of `(d + 59999) / 60000`. -/
def calculateTimeLeft (blockExpiration currentDate : Nat) : Int :=
  Int.fdiv ((blockExpiration : Int) - (currentDate : Int) + 59999) 60000

/-- `handleBlockExpiration`: when blocked, writes
`errorMessages.accountLockedv1(timeLeft)` and reports `true`.  The two
`new Date()` reads of the source are one logical instant `now`. -/
def handleBlockExpiration (now : Nat) (user : User) : List Resp × Bool :=
  if isAccountBlocked now user then
    ([Resp.accountLockedTimeLeft
        (calculateTimeLeft (user.verification.blockExpiration.getD 0) now)],
     true)
  else ([], false)

/-- `verifyUser`: lookup, then `!isUserVerified(user, res) ||
handleBlockExpiration(user, res)` — the block check runs only when the
verification check passed (JavaScript `||` short-circuit), while
`isUserVerified` itself always evaluates both sub-checks. -/
def verifyUser (db : List User) (now : Nat) (username : String) :
    List Resp × Option User :=
  match getUserByUsername db username with
  | none => ([Resp.userNotExists username], none)
  | some user =>
      let v := isUserVerified user
      if !v.2 then (v.1, none)
      else
        let b := handleBlockExpiration now user
        if b.2 then (v.1 ++ b.1, none)
        else (v.1 ++ b.1, some user)

/-- `loginUser`, the public `attemptLogin` operation: gates in source order,
then the credential check (`validatePassword`, the hashing collaborator,
passed as a function parameter) and the incorrect/successful handlers.
Returns the list of response writes and the updated store. -/
def loginUser (validatePassword : User → String → Bool)
    (generateAuthToken : User → String) (lockDuration now : Nat)
    (db : List User) (username password : String) :
    List Resp × List User :=
  let v := verifyUser db now username
  match v.2 with
  | none => (v.1, db)
  | some user =>
      if !validatePassword user password then
        let r := handleIncorrectPassword lockDuration now user
        (v.1 ++ r.1, updateUser db r.2)
      else
        let user1 := resetLoginAttempts user
        (v.1 ++ handleSuccessfulLogin generateAuthToken user1 password,
         updateUser db user1)

/-- The response actually sent by the transport: the first write wins (later
writes on an already-sent Express response are not delivered). -/
def sentResponse (writes : List Resp) : Option Resp := writes.head?

/-- Shorthand for the effective stored counter (`loginAttempts || 0`). -/
def attempts (user : User) : Nat := user.verification.loginAttempts.getD 0

end LoginGate

namespace LoginGate

theorem find_username_eq {db : List User} {n : String} {a : User}
    (hf : getUserByUsername db n = some a) : a.username = n := by
  have h := List.find?_some hf
  simpa using h

theorem getUserByUsername_updateUser (db : List User) (n : String)
    (a u : User) (hf : getUserByUsername db n = some a)
    (hu : u.username = a.username) :
    getUserByUsername (updateUser db u) n = some u := by
  have ha : a.username = n := find_username_eq hf
  induction db with
  | nil => simp [getUserByUsername] at hf
  | cons x rest ih =>
    by_cases hx : x.username = n
    · have hax : a = x := by
        simp [getUserByUsername, List.find?_cons, hx] at hf
        exact hf.symm
      simp [updateUser, hu, hax, hx, getUserByUsername, List.find?_cons, ha]
    · have hf' : getUserByUsername rest n = some a := by
        simpa [getUserByUsername, List.find?_cons, hx] using hf
      have hxu : ¬ (x.username == u.username) = true := by
        simp [hu, ha, hx]
      simp [updateUser, hxu, getUserByUsername, List.find?_cons, hx]
      exact ih hf'

end LoginGate

namespace LoginGate

theorem verifyUser_pass {db : List User} {now : Nat} {username : String}
    {acct : User} (hf : getUserByUsername db username = some acct)
    (he : acct.verification.isEmailVerified = true)
    (hp : acct.verification.isPhoneVerified = true)
    (hb : isAccountBlocked now acct = false) :
    verifyUser db now username = ([], some acct) := by
  simp [verifyUser, hf, isUserVerified, isEmailVerified, isPhoneVerified,
    he, hp, handleBlockExpiration, hb]

theorem loginUser_incorrect (vp : User → String → Bool)
    (gen : User → String) (L now : Nat) (db : List User)
    (username password : String) (acct : User)
    (hf : getUserByUsername db username = some acct)
    (he : acct.verification.isEmailVerified = true)
    (hp : acct.verification.isPhoneVerified = true)
    (hb : isAccountBlocked now acct = false)
    (hpw : vp acct password = false) :
    loginUser vp gen L now db username password =
      ((handleIncorrectPassword L now acct).1,
       updateUser db (handleIncorrectPassword L now acct).2) := by
  simp [loginUser, verifyUser_pass hf he hp hb, hpw]

end LoginGate

namespace LoginGate

theorem handleIncorrectPassword_spec (L now : Nat) (user : User) :
    ((handleIncorrectPassword L now user).2).username = user.username ∧
    ((handleIncorrectPassword L now user).2).verification.loginAttempts =
      some (attempts user + 1) ∧
    (MAX_LOGIN_ATTEMPTS ≤ attempts user + 1 →
      (handleIncorrectPassword L now user).1 = [Resp.accountLocked] ∧
      ((handleIncorrectPassword L now user).2).verification.blockExpiration =
        some (now + L)) ∧
    (attempts user + 1 < MAX_LOGIN_ATTEMPTS →
      (handleIncorrectPassword L now user).1 =
        [Resp.incorrectPassword (attempts user + 1)] ∧
      ((handleIncorrectPassword L now user).2).verification.blockExpiration =
        user.verification.blockExpiration) := by
  unfold handleIncorrectPassword incrementLoginAttempts handleLockedAccount
  unfold lockAccount attempts
  by_cases h : MAX_LOGIN_ATTEMPTS ≤ user.verification.loginAttempts.getD 0 + 1
  · simp [h, Nat.not_lt.mpr h]
  · simp [h, Nat.lt_of_not_le h]

/-- Claim C1: for a verified, unlocked account and an incorrect credential,
`loginUser` increments the stored `loginAttempts` by one; when the updated
count reaches the threshold `MAX_LOGIN_ATTEMPTS = 5` the account is freshly
locked (`blockExpiration` set by the lock collaborator) and the write is the
`accountLocked` rejection; below the threshold the write is
`incorrectPassword` with the updated count and the account remains
unlocked. -/
theorem attemptLogin_incorrect_credential_increments_and_locks
    (vp : User → String → Bool) (gen : User → String) (L now : Nat)
    (db : List User) (username password : String) (acct : User)
    (hf : getUserByUsername db username = some acct)
    (he : acct.verification.isEmailVerified = true)
    (hp : acct.verification.isPhoneVerified = true)
    (hb : isAccountBlocked now acct = false)
    (hpw : vp acct password = false) :
    ∃ acct',
      getUserByUsername (loginUser vp gen L now db username password).2
        username = some acct' ∧
      acct'.verification.loginAttempts = some (attempts acct + 1) ∧
      (MAX_LOGIN_ATTEMPTS ≤ attempts acct + 1 →
        (loginUser vp gen L now db username password).1 =
          [Resp.accountLocked] ∧
        acct'.verification.blockExpiration = some (now + L)) ∧
      (attempts acct + 1 < MAX_LOGIN_ATTEMPTS →
        (loginUser vp gen L now db username password).1 =
          [Resp.incorrectPassword (attempts acct + 1)] ∧
        isAccountBlocked now acct' = false) := by
  have hspec := handleIncorrectPassword_spec L now acct
  have hrun := loginUser_incorrect vp gen L now db username password acct
    hf he hp hb hpw
  refine ⟨(handleIncorrectPassword L now acct).2, ?_, hspec.2.1, ?_, ?_⟩
  · rw [hrun]
    exact getUserByUsername_updateUser db username acct _ hf hspec.1
  · intro h
    exact ⟨by rw [hrun]; exact (hspec.2.2.1 h).1, (hspec.2.2.1 h).2⟩
  · intro h
    refine ⟨by rw [hrun]; exact (hspec.2.2.2 h).1, ?_⟩
    have := (hspec.2.2.2 h).2
    simp [isAccountBlocked, this]
    simp [isAccountBlocked] at hb
    exact hb

end LoginGate

namespace LoginGate

def sampleAcct (e p : Bool) (la be : Option Nat) : User :=
  ⟨"alice", 7, "user", ⟨e, p, la, be⟩⟩

def noPw : User → String → Bool := fun _ _ => false

def yesPw : User → String → Bool := fun _ _ => true

def tok : User → String := fun _ => "token"

/-- Concrete instantiation of the C1 theorem at `loginAttempts = 4`. -/
theorem attemptLogin_incorrect_credential_witness :
    ∃ acct',
      getUserByUsername (loginUser noPw tok 1000 50
          [sampleAcct true true (some 4) none] "alice" "pw").2 "alice" =
        some acct' ∧
      acct'.verification.loginAttempts =
        some (attempts (sampleAcct true true (some 4) none) + 1) ∧
      (MAX_LOGIN_ATTEMPTS ≤ attempts (sampleAcct true true (some 4) none) + 1 →
        (loginUser noPw tok 1000 50 [sampleAcct true true (some 4) none]
            "alice" "pw").1 = [Resp.accountLocked] ∧
        acct'.verification.blockExpiration = some (50 + 1000)) ∧
      (attempts (sampleAcct true true (some 4) none) + 1 < MAX_LOGIN_ATTEMPTS →
        (loginUser noPw tok 1000 50 [sampleAcct true true (some 4) none]
            "alice" "pw").1 =
          [Resp.incorrectPassword
            (attempts (sampleAcct true true (some 4) none) + 1)] ∧
        isAccountBlocked 50 acct' = false) :=
  attemptLogin_incorrect_credential_increments_and_locks noPw tok 1000 50
    [sampleAcct true true (some 4) none] "alice" "pw"
    (sampleAcct true true (some 4) none)
    (by decide) (by decide) (by decide) (by decide) (by decide)

end LoginGate

namespace LoginGate

theorem loginUser_blocked (vp : User → String → Bool) (gen : User → String)
    (L now : Nat) (db : List User) (username password : String) (acct : User)
    (b : Nat) (hf : getUserByUsername db username = some acct)
    (he : acct.verification.isEmailVerified = true)
    (hp : acct.verification.isPhoneVerified = true)
    (hb : acct.verification.blockExpiration = some b) (hnow : now < b) :
    loginUser vp gen L now db username password =
      ([Resp.accountLockedTimeLeft (calculateTimeLeft b now)], db) := by
  simp [loginUser, verifyUser, hf, isUserVerified, isEmailVerified,
    isPhoneVerified, he, hp, handleBlockExpiration, isAccountBlocked, hb, hnow]

theorem calculateTimeLeft_pos {b now : Nat} (h : now < b) :
    1 ≤ calculateTimeLeft b now := by
  unfold calculateTimeLeft
  rw [show (b : Int) - (now : Int) + 59999 =
      ((b - now + 59999 : Nat) : Int) by omega]
  rw [show Int.fdiv ((b - now + 59999 : Nat) : Int) 60000 =
      (((b - now + 59999) / 60000 : Nat) : Int) from rfl]
  have h1 : 1 ≤ (b - now + 59999) / 60000 := by
    rw [Nat.one_le_div_iff (by omega)]
    omega
  exact_mod_cast h1

/-- Claim C2: for an account with both verification flags true and a
`blockExpiration` strictly in the future, `loginUser` yields the locked
rejection carrying `ceil((blockExpiration - now) / 60000) ≥ 1` minutes, for
every credential-check collaborator (the credential check is not reached),
and the store is unchanged. -/
theorem attemptLogin_locked_yields_ceiling_minutes
    (vp : User → String → Bool) (gen : User → String) (L now : Nat)
    (db : List User) (username password : String) (acct : User) (b : Nat)
    (hf : getUserByUsername db username = some acct)
    (he : acct.verification.isEmailVerified = true)
    (hp : acct.verification.isPhoneVerified = true)
    (hb : acct.verification.blockExpiration = some b) (hnow : now < b) :
    loginUser vp gen L now db username password =
      ([Resp.accountLockedTimeLeft (calculateTimeLeft b now)], db) ∧
    1 ≤ calculateTimeLeft b now :=
  ⟨loginUser_blocked vp gen L now db username password acct b hf he hp hb hnow,
   calculateTimeLeft_pos hnow⟩

/-- Concrete instantiation of the C2 theorem: lock expiring 60001 ms from
now is reported as 2 minutes, at both a correct and an incorrect
credential collaborator it is the same rejection. -/
theorem attemptLogin_locked_witness :
    loginUser yesPw tok 1000 50
        [sampleAcct true true (some 3) (some 60051)] "alice" "pw" =
      ([Resp.accountLockedTimeLeft (calculateTimeLeft 60051 50)],
       [sampleAcct true true (some 3) (some 60051)]) ∧
    1 ≤ calculateTimeLeft 60051 50 :=
  attemptLogin_locked_yields_ceiling_minutes yesPw tok 1000 50
    [sampleAcct true true (some 3) (some 60051)] "alice" "pw"
    (sampleAcct true true (some 3) (some 60051)) 60051
    (by decide) (by decide) (by decide) (by decide) (by decide)

end LoginGate

namespace LoginGate

theorem loginUser_success (vp : User → String → Bool) (gen : User → String)
    (L now : Nat) (db : List User) (username password : String) (acct : User)
    (hf : getUserByUsername db username = some acct)
    (he : acct.verification.isEmailVerified = true)
    (hp : acct.verification.isPhoneVerified = true)
    (hb : isAccountBlocked now acct = false)
    (hpw : vp acct password = true) :
    loginUser vp gen L now db username password =
      (handleSuccessfulLogin gen (resetLoginAttempts acct) password,
       updateUser db (resetLoginAttempts acct)) := by
  simp [loginUser, verifyUser_pass hf he hp hb, hpw]

/-- Claim C3: for a verified, unlocked account and a correct credential,
`loginUser` resets the stored counter to 0 and returns the success write;
the recovery message and the extra one-time-password field are present
exactly when the presented credential has 8 characters, and the recovery
message differs from the ordinary success message. -/
theorem attemptLogin_success_resets_and_flags_recovery
    (vp : User → String → Bool) (gen : User → String) (L now : Nat)
    (db : List User) (username password : String) (acct : User)
    (hf : getUserByUsername db username = some acct)
    (he : acct.verification.isEmailVerified = true)
    (hp : acct.verification.isPhoneVerified = true)
    (hb : isAccountBlocked now acct = false)
    (hpw : vp acct password = true) :
    ∃ acct' token,
      getUserByUsername (loginUser vp gen L now db username password).2
        username = some acct' ∧
      acct'.verification.loginAttempts = some 0 ∧
      (loginUser vp gen L now db username password).1 =
        [Resp.loggedIn
          (if password.length = 8 then recoveryMsg else userLoggedInMsg)
          token acct.id acct.rol
          (if password.length = 8 then some "randomPassword" else none)] ∧
      recoveryMsg ≠ userLoggedInMsg := by
  have hrun := loginUser_success vp gen L now db username password acct
    hf he hp hb hpw
  refine ⟨resetLoginAttempts acct, gen (resetLoginAttempts acct), ?_, ?_, ?_, ?_⟩
  · rw [hrun]
    exact getUserByUsername_updateUser db username acct _ hf
      (by simp [resetLoginAttempts])
  · simp [resetLoginAttempts]
  · rw [hrun]
    simp [handleSuccessfulLogin, resetLoginAttempts]
  · decide

/-- Concrete instantiation of the C3 theorem at an 8-character credential. -/
theorem attemptLogin_success_witness :
    ∃ acct' token,
      getUserByUsername (loginUser yesPw tok 1000 50
          [sampleAcct true true (some 3) none] "alice" "abcd1234").2
        "alice" = some acct' ∧
      acct'.verification.loginAttempts = some 0 ∧
      (loginUser yesPw tok 1000 50 [sampleAcct true true (some 3) none]
          "alice" "abcd1234").1 =
        [Resp.loggedIn
          (if ("abcd1234" : String).length = 8 then recoveryMsg
           else userLoggedInMsg)
          token (sampleAcct true true (some 3) none).id
          (sampleAcct true true (some 3) none).rol
          (if ("abcd1234" : String).length = 8 then some "randomPassword"
           else none)] ∧
      recoveryMsg ≠ userLoggedInMsg :=
  attemptLogin_success_resets_and_flags_recovery yesPw tok 1000 50
    [sampleAcct true true (some 3) none] "alice" "abcd1234"
    (sampleAcct true true (some 3) none)
    (by decide) (by decide) (by decide) (by decide) (by decide)

end LoginGate

namespace LoginGate

/-- Claim C4: for an account whose email flag is false, whatever the phone
flag, lock state, or credential collaborator, `loginUser` leaves the store
unchanged, the response sent is the unverified-user rejection, and no
lockout, credential, or success write is ever produced. -/
theorem attemptLogin_email_not_verified_rejects
    (vp : User → String → Bool) (gen : User → String) (L now : Nat)
    (db : List User) (username password : String) (acct : User)
    (hf : getUserByUsername db username = some acct)
    (he : acct.verification.isEmailVerified = false) :
    (loginUser vp gen L now db username password).2 = db ∧
    sentResponse (loginUser vp gen L now db username password).1 =
      some Resp.userNotVerified ∧
    ∀ r ∈ (loginUser vp gen L now db username password).1,
      r = Resp.userNotVerified ∨ r = Resp.numberNotVerified := by
  by_cases hp : acct.verification.isPhoneVerified = true
  · simp [loginUser, verifyUser, hf, isUserVerified, isEmailVerified,
      isPhoneVerified, he, hp, handleUnverifiedUser, sentResponse]
  · simp only [Bool.not_eq_true] at hp
    simp [loginUser, verifyUser, hf, isUserVerified, isEmailVerified,
      isPhoneVerified, he, hp, handleUnverifiedUser, sentResponse]

/-- Concrete instantiation of the C4 theorem at an account with both flags
false, a stale lock and a correct credential. -/
theorem attemptLogin_email_not_verified_witness :
    (loginUser yesPw tok 1000 50
        [sampleAcct false false (some 2) (some 99999)] "alice" "pw").2 =
      [sampleAcct false false (some 2) (some 99999)] ∧
    sentResponse (loginUser yesPw tok 1000 50
        [sampleAcct false false (some 2) (some 99999)] "alice" "pw").1 =
      some Resp.userNotVerified ∧
    ∀ r ∈ (loginUser yesPw tok 1000 50
        [sampleAcct false false (some 2) (some 99999)] "alice" "pw").1,
      r = Resp.userNotVerified ∨ r = Resp.numberNotVerified :=
  attemptLogin_email_not_verified_rejects yesPw tok 1000 50
    [sampleAcct false false (some 2) (some 99999)] "alice" "pw"
    (sampleAcct false false (some 2) (some 99999))
    (by decide) (by decide)

end LoginGate

namespace LoginGate

/-- Claim C5 counterexample: at an account with both verification flags
false, one call performs TWO rejection writes on the response object (the
email one and then the phone one), so "exactly one outcome value / at most
one rejection response is produced" fails on the code as written. -/
theorem attemptLogin_two_rejection_writes :
    (loginUser yesPw tok 1000 50 [sampleAcct false false none none]
        "alice" "pw").1 =
      [Resp.userNotVerified, Resp.numberNotVerified] ∧
    (loginUser yesPw tok 1000 50 [sampleAcct false false none none]
        "alice" "pw").1.length ≠ 1 := by
  constructor
  · decide
  · decide

/-- Claim C5 (amended): the write lists are exactly flag-conditioned.  When
the username is absent, the single write is `userNotExists`.  When the
looked-up account has BOTH verification flags false, the call always
performs exactly two rejection writes, the email one first and then the
phone one, so the transport sends the email message.  In every other case
(at least one flag true) the call performs exactly one write. -/
theorem attemptLogin_writes_shape (vp : User → String → Bool)
    (gen : User → String) (L now : Nat) (db : List User)
    (username password : String) :
    (getUserByUsername db username = none →
      (loginUser vp gen L now db username password).1 =
        [Resp.userNotExists username]) ∧
    ∀ acct, getUserByUsername db username = some acct →
      ((acct.verification.isEmailVerified = false ∧
        acct.verification.isPhoneVerified = false →
        (loginUser vp gen L now db username password).1 =
          [Resp.userNotVerified, Resp.numberNotVerified]) ∧
       (acct.verification.isEmailVerified = true ∨
        acct.verification.isPhoneVerified = true →
        ∃ r, (loginUser vp gen L now db username password).1 = [r])) := by
  constructor
  · intro hf
    simp [loginUser, verifyUser, hf]
  · intro user hf
    constructor
    · rintro ⟨he0, hp0⟩
      simp [loginUser, verifyUser, hf, isUserVerified, isEmailVerified,
        isPhoneVerified, he0, hp0, handleUnverifiedUser]
    · intro hor
      by_cases he : user.verification.isEmailVerified = true
      · by_cases hp : user.verification.isPhoneVerified = true
        · by_cases hblk : isAccountBlocked now user = true
          · cases hbe : user.verification.blockExpiration with
            | none => simp [isAccountBlocked, hbe] at hblk
            | some b =>
              have hnow : now < b := by
                simpa [isAccountBlocked, hbe] using hblk
              rw [loginUser_blocked vp gen L now db username password user b
                hf he hp hbe hnow]
              exact ⟨Resp.accountLockedTimeLeft (calculateTimeLeft b now),
                rfl⟩
          · have hb : isAccountBlocked now user = false := by
              simpa using hblk
            by_cases hpw : vp user password = true
            · rw [loginUser_success vp gen L now db username password user
                hf he hp hb hpw]
              exact ⟨Resp.loggedIn
                (if password.length == 8 then recoveryMsg
                 else userLoggedInMsg)
                (gen (resetLoginAttempts user)) (resetLoginAttempts user).id
                (resetLoginAttempts user).rol
                (if password.length == 8 then some "randomPassword"
                 else none), rfl⟩
            · have hpw0 : vp user password = false := by simpa using hpw
              rw [loginUser_incorrect vp gen L now db username password user
                hf he hp hb hpw0]
              by_cases ht : MAX_LOGIN_ATTEMPTS ≤ attempts user + 1
              · exact ⟨Resp.accountLocked,
                  ((handleIncorrectPassword_spec L now user).2.2.1 ht).1⟩
              · exact ⟨Resp.incorrectPassword (attempts user + 1),
                  ((handleIncorrectPassword_spec L now user).2.2.2
                    (Nat.lt_of_not_le ht)).1⟩
        · have hp0 : user.verification.isPhoneVerified = false := by
            simpa using hp
          exact ⟨Resp.numberNotVerified, by simp [loginUser, verifyUser, hf,
            isUserVerified, isEmailVerified, isPhoneVerified, he, hp0]⟩
      · have he0 : user.verification.isEmailVerified = false := by
          simpa using he
        have hptrue : user.verification.isPhoneVerified = true := by
          rcases hor with h | h
          · exact absurd h he
          · exact h
        exact ⟨Resp.userNotVerified, by simp [loginUser, verifyUser, hf,
          isUserVerified, isEmailVerified, isPhoneVerified, he0, hptrue,
          handleUnverifiedUser]⟩

/-- Concrete instantiation of the amended C5 theorem at a store holding an
account with both verification flags false. -/
theorem attemptLogin_writes_shape_witness :
    (getUserByUsername [sampleAcct false false none none] "alice" = none →
      (loginUser yesPw tok 1000 50 [sampleAcct false false none none]
          "alice" "pw").1 = [Resp.userNotExists "alice"]) ∧
    ∀ acct,
      getUserByUsername [sampleAcct false false none none] "alice" =
        some acct →
      ((acct.verification.isEmailVerified = false ∧
        acct.verification.isPhoneVerified = false →
        (loginUser yesPw tok 1000 50 [sampleAcct false false none none]
            "alice" "pw").1 =
          [Resp.userNotVerified, Resp.numberNotVerified]) ∧
       (acct.verification.isEmailVerified = true ∨
        acct.verification.isPhoneVerified = true →
        ∃ r, (loginUser yesPw tok 1000 50 [sampleAcct false false none none]
            "alice" "pw").1 = [r])) :=
  attemptLogin_writes_shape yesPw tok 1000 50
    [sampleAcct false false none none] "alice" "pw"

end LoginGate

namespace LoginGate

/-- Claim C6: with `blockExpiration = T + D` stored on a verified account,
every attempt with `now` in `[T, T + D)` is rejected as locked with the
store unchanged, and every attempt at or after `T + D` passes the lockout
gate with the account record unmodified (the stored `blockExpiration` is not
cleared) and produces exactly the credential check's outcome. -/
theorem attemptLogin_lock_window_and_expiry (vp : User → String → Bool)
    (gen : User → String) (L now : Nat) (db : List User)
    (username password : String) (acct : User) (T D : Nat)
    (hf : getUserByUsername db username = some acct)
    (he : acct.verification.isEmailVerified = true)
    (hp : acct.verification.isPhoneVerified = true)
    (hbe : acct.verification.blockExpiration = some (T + D)) :
    (T ≤ now → now < T + D →
      loginUser vp gen L now db username password =
        ([Resp.accountLockedTimeLeft (calculateTimeLeft (T + D) now)], db)) ∧
    (T + D ≤ now →
      verifyUser db now username = ([], some acct) ∧
      (loginUser vp gen L now db username password).1 =
        (if vp acct password = true then
          handleSuccessfulLogin gen (resetLoginAttempts acct) password
         else (handleIncorrectPassword L now acct).1)) := by
  constructor
  · intro _ h2
    exact loginUser_blocked vp gen L now db username password acct (T + D)
      hf he hp hbe h2
  · intro hexp
    have hb : isAccountBlocked now acct = false := by
      simp [isAccountBlocked, hbe]
      omega
    refine ⟨verifyUser_pass hf he hp hb, ?_⟩
    by_cases hpw : vp acct password = true
    · rw [loginUser_success vp gen L now db username password acct
        hf he hp hb hpw, if_pos hpw]
    · have hpw0 : vp acct password = false := by simpa using hpw
      rw [loginUser_incorrect vp gen L now db username password acct
        hf he hp hb hpw0, if_neg hpw]

/-- Concrete instantiation of the C6 theorem at `T = 100`, `D = 60000`,
`now = 50000` (inside the window). -/
theorem attemptLogin_lock_window_witness :
    (100 ≤ 50000 → 50000 < 100 + 60000 →
      loginUser noPw tok 1000 50000
          [sampleAcct true true (some 2) (some (100 + 60000))]
          "alice" "pw" =
        ([Resp.accountLockedTimeLeft (calculateTimeLeft (100 + 60000) 50000)],
         [sampleAcct true true (some 2) (some (100 + 60000))])) ∧
    (100 + 60000 ≤ 50000 →
      verifyUser [sampleAcct true true (some 2) (some (100 + 60000))] 50000
          "alice" =
        ([], some (sampleAcct true true (some 2) (some (100 + 60000)))) ∧
      (loginUser noPw tok 1000 50000
          [sampleAcct true true (some 2) (some (100 + 60000))]
          "alice" "pw").1 =
        (if noPw (sampleAcct true true (some 2) (some (100 + 60000))) "pw" =
            true then
          handleSuccessfulLogin tok
            (resetLoginAttempts (sampleAcct true true (some 2)
              (some (100 + 60000)))) "pw"
         else (handleIncorrectPassword 1000 50000
            (sampleAcct true true (some 2) (some (100 + 60000)))).1)) :=
  attemptLogin_lock_window_and_expiry noPw tok 1000 50000
    [sampleAcct true true (some 2) (some (100 + 60000))] "alice" "pw"
    (sampleAcct true true (some 2) (some (100 + 60000))) 100 60000
    (by decide) (by decide) (by decide) (by decide)

end LoginGate

namespace LoginGate

theorem updateUser_forall2 (db : List User) (n : String) (a u : User)
    (hf : getUserByUsername db n = some a) (hu : u.username = a.username) :
    List.Forall₂ (fun x y => y = x ∨ (x = a ∧ y = u)) db (updateUser db u) := by
  have ha : a.username = n := find_username_eq hf
  induction db with
  | nil => simp [getUserByUsername] at hf
  | cons x rest ih =>
    by_cases hx : x.username = n
    · have hax : a = x := by
        simp [getUserByUsername, List.find?_cons, hx] at hf
        exact hf.symm
      have hxu : (x.username == u.username) = true := by simp [hu, ← hax, ha]
      rw [show updateUser (x :: rest) u = u :: rest by simp [updateUser, hxu]]
      exact List.Forall₂.cons (Or.inr ⟨hax.symm, rfl⟩)
        (List.forall₂_same.2 fun y _ => Or.inl rfl)
    · have hf2 : getUserByUsername rest n = some a := by
        simpa [getUserByUsername, List.find?_cons, hx] using hf
      have hxu : ¬ (x.username == u.username) = true := by simp [hu, ha, hx]
      rw [show updateUser (x :: rest) u = x :: updateUser rest u by
        simp [updateUser, hxu]]
      exact List.Forall₂.cons (Or.inl rfl) (ih hf2)

/-- Claim C7: across every possible call, the stored counter of every
account never decreases except by the reset-to-zero of a successful login:
each stored record is either untouched, or its effective counter is
incremented by exactly one, or it is set to 0 while a success write is
produced. -/
theorem attemptLogin_counter_never_decreases (vp : User → String → Bool)
    (gen : User → String) (L now : Nat) (db : List User)
    (username password : String) :
    List.Forall₂
      (fun old new =>
        attempts new = attempts old ∨
        attempts new = attempts old + 1 ∨
        (attempts new = 0 ∧ ∃ m t uid r p, Resp.loggedIn m t uid r p ∈
          (loginUser vp gen L now db username password).1))
      db (loginUser vp gen L now db username password).2 := by
  have hrefl : ∀ (l : List User),
      List.Forall₂
        (fun old new =>
          attempts new = attempts old ∨
          attempts new = attempts old + 1 ∨
          (attempts new = 0 ∧ ∃ m t uid r p, Resp.loggedIn m t uid r p ∈
            (loginUser vp gen L now db username password).1)) l l :=
    fun l => List.forall₂_same.2 fun y _ => Or.inl rfl
  cases hf : getUserByUsername db username with
  | none =>
    rw [show (loginUser vp gen L now db username password).2 = db by
      simp [loginUser, verifyUser, hf]]
    exact hrefl db
  | some user =>
    by_cases he : user.verification.isEmailVerified = true
    · by_cases hp : user.verification.isPhoneVerified = true
      · by_cases hblk : isAccountBlocked now user = true
        · rw [show (loginUser vp gen L now db username password).2 = db by
            simp [loginUser, verifyUser, hf, isUserVerified, isEmailVerified,
              isPhoneVerified, he, hp, handleBlockExpiration, hblk]]
          exact hrefl db
        · have hb : isAccountBlocked now user = false := by simpa using hblk
          by_cases hpw : vp user password = true
          · have h2 : (loginUser vp gen L now db username password).2 =
                updateUser db (resetLoginAttempts user) := by
              rw [loginUser_success vp gen L now db username password user
                hf he hp hb hpw]
            have h1 : (loginUser vp gen L now db username password).1 =
                handleSuccessfulLogin gen (resetLoginAttempts user)
                  password := by
              rw [loginUser_success vp gen L now db username password user
                hf he hp hb hpw]
            rw [h2]
            refine (updateUser_forall2 db username user
              (resetLoginAttempts user) hf (by simp [resetLoginAttempts])).imp
              ?_
            rintro x y (rfl | ⟨rfl, rfl⟩)
            · exact Or.inl rfl
            · refine Or.inr (Or.inr
                ⟨by simp [attempts, resetLoginAttempts], ?_⟩)
              rw [h1]
              exact ⟨if password.length == 8 then recoveryMsg
                  else userLoggedInMsg,
                gen (resetLoginAttempts x), (resetLoginAttempts x).id,
                (resetLoginAttempts x).rol,
                if password.length == 8 then some "randomPassword" else none,
                by simp [handleSuccessfulLogin]⟩
          · have hpw0 : vp user password = false := by simpa using hpw
            rw [loginUser_incorrect vp gen L now db username password user
              hf he hp hb hpw0]
            refine (updateUser_forall2 db username user
              (handleIncorrectPassword L now user).2 hf
              ((handleIncorrectPassword_spec L now user).1)).imp ?_
            rintro x y (rfl | ⟨rfl, rfl⟩)
            · exact Or.inl rfl
            · refine Or.inr (Or.inl ?_)
              have := (handleIncorrectPassword_spec L now x).2.1
              simp [attempts, this]
      · have hp0 : user.verification.isPhoneVerified = false := by
          simpa using hp
        rw [show (loginUser vp gen L now db username password).2 = db by
          simp [loginUser, verifyUser, hf, isUserVerified, isEmailVerified,
            isPhoneVerified, he, hp0]]
        exact hrefl db
    · have he0 : user.verification.isEmailVerified = false := by
        simpa using he
      rw [show (loginUser vp gen L now db username password).2 = db by
        simp [loginUser, verifyUser, hf, isUserVerified, isEmailVerified,
          isPhoneVerified, he0]]
      exact hrefl db

end LoginGate

namespace LoginGate

/-- Claim C8: a username that resolves to no account yields the
`userNotExists` rejection naming the username and leaves the store
untouched, and iterating the call any number of times still leaves the
store untouched. -/
theorem attemptLogin_user_not_found (vp : User → String → Bool)
    (gen : User → String) (L now : Nat) (db : List User)
    (username password : String)
    (hf : getUserByUsername db username = none) :
    loginUser vp gen L now db username password =
      ([Resp.userNotExists username], db) ∧
    ∀ k, (fun d => (loginUser vp gen L now d username password).2)^[k] db =
      db := by
  have h1 : loginUser vp gen L now db username password =
      ([Resp.userNotExists username], db) := by
    simp [loginUser, verifyUser, hf]
  refine ⟨h1, fun k => Function.iterate_fixed ?_ k⟩
  show (loginUser vp gen L now db username password).2 = db
  rw [h1]

/-- Concrete instantiation of the C8 theorem at a store without the
requested username. -/
theorem attemptLogin_user_not_found_witness :
    loginUser yesPw tok 1000 50 [sampleAcct true true (some 1) none]
        "ghost" "pw" =
      ([Resp.userNotExists "ghost"],
       [sampleAcct true true (some 1) none]) ∧
    ∀ k, (fun d => (loginUser yesPw tok 1000 50 d "ghost" "pw").2)^[k]
        [sampleAcct true true (some 1) none] =
      [sampleAcct true true (some 1) none] :=
  attemptLogin_user_not_found yesPw tok 1000 50
    [sampleAcct true true (some 1) none] "ghost" "pw" (by decide)

/-- Claim C9: the threshold lock transition never touches the counter, so
after a lock at count 5 expires naturally, a single incorrect credential
takes the counter to 6 (still at or above the threshold) and immediately
re-locks the account: the write is `accountLocked` and a fresh
`blockExpiration` is stored. -/
theorem attemptLogin_expired_lock_relocks (vp : User → String → Bool)
    (gen : User → String) (L now : Nat) (db : List User)
    (username password : String) (acct : User) (b : Nat)
    (hf : getUserByUsername db username = some acct)
    (he : acct.verification.isEmailVerified = true)
    (hp : acct.verification.isPhoneVerified = true)
    (hbe : acct.verification.blockExpiration = some b) (hexp : b ≤ now)
    (hcount : MAX_LOGIN_ATTEMPTS ≤ attempts acct)
    (hpw : vp acct password = false) :
    (∀ u : User, ((handleLockedAccount L now u).2).verification.loginAttempts =
      u.verification.loginAttempts) ∧
    (loginUser vp gen L now db username password).1 = [Resp.accountLocked] ∧
    ∃ acct',
      getUserByUsername (loginUser vp gen L now db username password).2
        username = some acct' ∧
      acct'.verification.loginAttempts = some (attempts acct + 1) ∧
      MAX_LOGIN_ATTEMPTS ≤ attempts acct + 1 ∧
      acct'.verification.blockExpiration = some (now + L) := by
  have hb : isAccountBlocked now acct = false := by
    simp [isAccountBlocked, hbe]
    omega
  have hrun := loginUser_incorrect vp gen L now db username password acct
    hf he hp hb hpw
  have hspec := handleIncorrectPassword_spec L now acct
  have ht : MAX_LOGIN_ATTEMPTS ≤ attempts acct + 1 :=
    le_trans hcount (Nat.le_succ _)
  refine ⟨fun u => by simp [handleLockedAccount, lockAccount], ?_, ?_⟩
  · rw [hrun]
    exact (hspec.2.2.1 ht).1
  · refine ⟨(handleIncorrectPassword L now acct).2, ?_, hspec.2.1, ht,
      (hspec.2.2.1 ht).2⟩
    rw [hrun]
    exact getUserByUsername_updateUser db username acct _ hf hspec.1

/-- Concrete instantiation of the C9 theorem: lock expired at 40, attempt at
50 with counter 5 and a wrong credential. -/
theorem attemptLogin_expired_lock_relocks_witness :
    (∀ u : User,
      ((handleLockedAccount 1000 50 u).2).verification.loginAttempts =
        u.verification.loginAttempts) ∧
    (loginUser noPw tok 1000 50 [sampleAcct true true (some 5) (some 40)]
        "alice" "pw").1 = [Resp.accountLocked] ∧
    ∃ acct',
      getUserByUsername (loginUser noPw tok 1000 50
          [sampleAcct true true (some 5) (some 40)] "alice" "pw").2
        "alice" = some acct' ∧
      acct'.verification.loginAttempts =
        some (attempts (sampleAcct true true (some 5) (some 40)) + 1) ∧
      MAX_LOGIN_ATTEMPTS ≤
        attempts (sampleAcct true true (some 5) (some 40)) + 1 ∧
      acct'.verification.blockExpiration = some (50 + 1000) :=
  attemptLogin_expired_lock_relocks noPw tok 1000 50
    [sampleAcct true true (some 5) (some 40)] "alice" "pw"
    (sampleAcct true true (some 5) (some 40)) 40
    (by decide) (by decide) (by decide) (by decide) (by decide) (by decide)
    (by decide)

/-- Claim C10: a missing stored `loginAttempts` is treated as 0: for a
verified, unlocked account with the field absent, an incorrect credential
writes `incorrectPassword 1` and persists the counter as 1. -/
theorem attemptLogin_missing_counter_treated_as_zero
    (vp : User → String → Bool) (gen : User → String) (L now : Nat)
    (db : List User) (username password : String) (acct : User)
    (hf : getUserByUsername db username = some acct)
    (he : acct.verification.isEmailVerified = true)
    (hp : acct.verification.isPhoneVerified = true)
    (hb : isAccountBlocked now acct = false)
    (hla : acct.verification.loginAttempts = none)
    (hpw : vp acct password = false) :
    (loginUser vp gen L now db username password).1 =
      [Resp.incorrectPassword 1] ∧
    ∃ acct',
      getUserByUsername (loginUser vp gen L now db username password).2
        username = some acct' ∧
      acct'.verification.loginAttempts = some 1 := by
  have hrun := loginUser_incorrect vp gen L now db username password acct
    hf he hp hb hpw
  have hspec := handleIncorrectPassword_spec L now acct
  have ha0 : attempts acct = 0 := by simp [attempts, hla]
  have hlt : attempts acct + 1 < MAX_LOGIN_ATTEMPTS := by
    rw [ha0]
    decide
  constructor
  · rw [hrun]
    have h := (hspec.2.2.2 hlt).1
    rwa [ha0] at h
  · refine ⟨(handleIncorrectPassword L now acct).2, ?_, ?_⟩
    · rw [hrun]
      exact getUserByUsername_updateUser db username acct _ hf hspec.1
    · have h := hspec.2.1
      rwa [ha0] at h

/-- Concrete instantiation of the C10 theorem at an account whose counter
field is absent. -/
theorem attemptLogin_missing_counter_witness :
    (loginUser noPw tok 1000 50 [sampleAcct true true none none]
        "alice" "pw").1 = [Resp.incorrectPassword 1] ∧
    ∃ acct',
      getUserByUsername (loginUser noPw tok 1000 50
          [sampleAcct true true none none] "alice" "pw").2 "alice" =
        some acct' ∧
      acct'.verification.loginAttempts = some 1 :=
  attemptLogin_missing_counter_treated_as_zero noPw tok 1000 50
    [sampleAcct true true none none] "alice" "pw"
    (sampleAcct true true none none)
    (by decide) (by decide) (by decide) (by decide) (by decide) (by decide)

end LoginGate
